import Mathlib

/-
  Verification development for the datapyrse client-side data-access layer.

  Shallow embedding of:
  - the query expression model and its FetchXML compiler
    (src/datapyrse/query/_query_expression.py, src/datapyrse/models/condition_expression.py,
     src/datapyrse/models/column_set.py, src/datapyrse/query/_filter_expression.py,
     src/datapyrse/query/_link_entity.py, src/datapyrse/query/_order_expression.py),
  - the entity attribute codec
    (src/datapyrse/_entity.py Entity._parse_attributes,
     src/datapyrse/utils/_dataverse.py parse_entity_to_web_api_body),
  - the relationship resolver
    (src/datapyrse/messages/_relate.py RelateRequest.validate_relationship_name
     and RelateRequest.parse_relationship_name).

  Modelling conventions:
  - Python scalar values that travel over the wire are modelled by `Prim`
    (string / int / bool / None).  Floats do not occur in any property below.
  - Python truthiness is modelled explicitly (`Prim.truthy`, empty list = falsy,
    empty string = falsy, `None` = falsy).  Dataclass instances are always
    truthy in Python, so `if not <dataclass>` guards are dead code and are
    dropped (noted at each use).
  - Python `Optional[list[T]]` fields that are only ever tested for truthiness
    (where `None` and `[]` behave identically) are modelled as plain lists.
  - Exceptions are modelled with `Except String`; the message is the message
    the source raises.
  - `xml.etree.ElementTree` serialization (`ET.tostring(_, encoding="unicode")`)
    is modelled by `Element.serialize` below, faithful to CPython's
    `_serialize_xml` for elements without tails or namespaces, with the default
    `short_empty_elements=True` (an element with no text and no children is
    written as `<tag />`, with a space).
  - `uuid.UUID(<str>)` is modelled by `uuidParse`: strip `urn:`/`uuid:`
    prefixes and surrounding braces, remove dashes, require exactly 32 hex
    digits; the canonical value kept is the lowercase 32-char hex string, and
    `str()` of a UUID re-inserts the dashes (8-4-4-4-12, lowercase).
-/

/-! ## Python scalar values -/

/-- A Python/JSON scalar as it appears in wire payloads and condition values:
a string, an int, a bool, or `None`/null. -/
inductive Prim where
  | str (s : String)
  | int (n : Int)
  | bool (b : Bool)
  | null
deriving DecidableEq

/-- Python `str()` of a scalar: `str(True) = "True"`, `str(None) = "None"`. -/
def Prim.pyStr : Prim → String
  | .str s => s
  | .int n => toString n
  | .bool true => "True"
  | .bool false => "False"
  | .null => "None"

/-- Python truthiness of a scalar: `""`, `0`, `False` and `None` are falsy. -/
def Prim.truthy : Prim → Bool
  | .str s => s ≠ ""
  | .int n => n ≠ 0
  | .bool b => b
  | .null => false

/-- Python `str()` applied to a `dict.get` result: `str(None) = "None"`. -/
def pyStrOfGet : Option Prim → String
  | none => "None"
  | some p => p.pyStr

/-! ## Python string primitives

Lean core's `String.replace`, `String.toLower`, `String.startsWith`,
`String.endsWith` and friends are implemented with loops that the kernel
cannot evaluate, so the Python string operations the source uses are
modelled directly on character lists. -/

/-- Python `str.lower()` (the strings involved are ASCII). -/
def pyLower (s : String) : String := String.mk (s.toList.map Char.toLower)

/-- Python `str.startswith(p)`. -/
def pyStartsWith (s p : String) : Bool := List.isPrefixOf p.toList s.toList

/-- Python `str.endswith(p)`. -/
def pyEndsWith (s p : String) : Bool := List.isSuffixOf p.toList s.toList

/-- Python slicing `s[n:]`. -/
def pyDrop (s : String) (n : Nat) : String := String.mk (s.toList.drop n)

/-- Python slicing `s[:-n]` for `0 < n`. -/
def pyDropRight (s : String) (n : Nat) : String :=
  String.mk (s.toList.take (s.toList.length - n))

/-- Python `str.replace(pat, rep)` on character lists: leftmost,
non-overlapping.  `fuel` bounds the recursion; it is always instantiated
with the subject's length, which suffices for the non-empty patterns used
here (each step consumes at least one character). -/
def replaceChars (pat rep : List Char) : Nat → List Char → List Char
  | _, [] => []
  | 0, l => l
  | fuel + 1, c :: rest =>
      if List.isPrefixOf pat (c :: rest) then
        rep ++ replaceChars pat rep fuel (List.drop pat.length (c :: rest))
      else c :: replaceChars pat rep fuel rest

/-- Python `str.replace(pat, rep)`. -/
def pyReplace (s pat rep : String) : String :=
  String.mk (replaceChars pat.toList rep.toList s.toList.length s.toList)

/-! ## Model of `uuid.UUID` parsing and printing -/

def isHexChar (c : Char) : Bool :=
  c.isDigit || ('a' ≤ c && c ≤ 'f') || ('A' ≤ c && c ≤ 'F')

/-- `str.strip('{}')`: remove leading and trailing brace characters. -/
def stripBraces (s : String) : String :=
  let isBrace : Char → Bool := fun c => c = Char.ofNat 123 || c = Char.ofNat 125
  let l := s.toList.dropWhile isBrace
  String.mk ((l.reverse.dropWhile isBrace).reverse)

/-- Model of `uuid.UUID(hex=s)`: strip `urn:` and `uuid:`, strip surrounding
braces, remove dashes, require 32 hex digits.  Returns the canonical
lowercase 32-char hex string. -/
def uuidParse (s : String) : Option String :=
  let h := stripBraces (pyReplace (pyReplace s "urn:" "") "uuid:" "")
  let h := pyReplace h "-" ""
  if h.toList.length = 32 && h.toList.all isHexChar then some (pyLower h) else none

/-- `str()` of a `uuid.UUID` value held as canonical 32-hex: lowercase,
dashes re-inserted as 8-4-4-4-12. -/
def uuidToStr (h : String) : String :=
  let l := h.toList
  String.mk (l.take 8) ++ "-" ++ String.mk ((l.drop 8).take 4) ++ "-"
    ++ String.mk ((l.drop 12).take 4) ++ "-" ++ String.mk ((l.drop 16).take 4)
    ++ "-" ++ String.mk (l.drop 20)

/-- `uuid.UUID(v)` where `v` is an arbitrary scalar: only strings can parse;
a non-parseable string raises `ValueError("badly formed hexadecimal UUID
string")`, a non-string raises a `TypeError`. -/
def pyUUID : Prim → Except String String
  | .str s =>
      match uuidParse s with
      | some h => .ok h
      | none => .error "badly formed hexadecimal UUID string"
  | _ => .error "UUID constructor requires a string argument"

/-! ## Model of `xml.etree.ElementTree` elements and serialization -/

mutual
/-- An XML element: tag, ordered attribute list, text (empty string models
Python `None`/empty text, which is falsy), ordered children. -/
inductive Element where
  | mk (tag : String) (attribs : List (String × String)) (text : String)
      (children : ElementList)
inductive ElementList where
  | nil
  | cons (e : Element) (es : ElementList)
end

def Element.tag : Element → String
  | .mk t _ _ _ => t

def Element.attribs : Element → List (String × String)
  | .mk _ a _ _ => a

def Element.text : Element → String
  | .mk _ _ tx _ => tx

def Element.children : Element → ElementList
  | .mk _ _ _ cs => cs

def ElementList.isNil : ElementList → Bool
  | .nil => true
  | .cons _ _ => false

def ElementList.toList : ElementList → List Element
  | .nil => []
  | .cons e es => e :: es.toList

def ElementList.ofList : List Element → ElementList
  | [] => .nil
  | e :: es => .cons e (ElementList.ofList es)

/-- Python dict assignment `d[k] = v` on an insertion-ordered dict (also
`Element.set`): replace in place if the key exists, else append. -/
def dictSet {α : Type} : List (String × α) → String → α → List (String × α)
  | [], k, v => [(k, v)]
  | (k', v') :: rest, k, v =>
      if k' = k then (k, v) :: rest else (k', v') :: dictSet rest k v

/-- Python dict lookup `d.get(k)`. -/
def dictGet {α : Type} : List (String × α) → String → Option α
  | [], _ => none
  | (k', v') :: rest, k => if k' = k then some v' else dictGet rest k

/-- `Element.set(k, v)`. -/
def Element.setAttr : Element → String → String → Element
  | .mk t a tx cs, k, v => .mk t (dictSet a k v) tx cs

/-- CPython `xml.etree.ElementTree._escape_attrib`. -/
def escapeAttrib (s : String) : String :=
  pyReplace (pyReplace (pyReplace (pyReplace (pyReplace (pyReplace (pyReplace
    s "&" "&amp;") "<" "&lt;") ">" "&gt;") "\"" "&quot;") "\r" "&#13;")
    "\n" "&#10;") "\t" "&#09;"

/-- CPython `xml.etree.ElementTree._escape_cdata`. -/
def escapeCdata (s : String) : String :=
  pyReplace (pyReplace (pyReplace s "&" "&amp;") "<" "&lt;") ">" "&gt;"

mutual
/-- CPython `_serialize_xml` for an element with no tail and no namespaces,
default `short_empty_elements=True`: `<tag attrs />` when there is no text
and no children, else `<tag attrs>text children</tag>`. -/
def Element.serialize : Element → String
  | .mk tag attribs text children =>
      "<" ++ tag
        ++ String.join (attribs.map (fun kv => " " ++ kv.1 ++ "=\"" ++ escapeAttrib kv.2 ++ "\""))
        ++ (if text = "" && children.isNil then " />"
            else ">" ++ (if text = "" then "" else escapeCdata text)
              ++ ElementList.serializeAll children ++ "</" ++ tag ++ ">")
termination_by structural e => e

def ElementList.serializeAll : ElementList → String
  | .nil => ""
  | .cons e es => e.serialize ++ ElementList.serializeAll es
termination_by structural l => l
end

/-! ## Query expression model

From `src/datapyrse/models/column_set.py`, `src/datapyrse/models/condition_expression.py`,
`src/datapyrse/query/_filter_expression.py`, `src/datapyrse/query/_order_expression.py`,
`src/datapyrse/query/_link_entity.py`, `src/datapyrse/query/_query_expression.py`. -/

/-- `ColumnSet.columns`: `Union[list[str], bool]`. -/
inductive ColumnsVal where
  | bool (b : Bool)
  | list (cols : List String)
deriving DecidableEq

structure ColumnSet where
  columns : ColumnsVal
deriving DecidableEq

/-- Python truthiness of `ColumnsVal` (`False`, `[]` falsy). -/
def ColumnsVal.truthy : ColumnsVal → Bool
  | .bool b => b
  | .list cols => !cols.isEmpty

/-- `ColumnSet.__post_init__`: falsy columns are rejected, the boolean
sentinel `True` is normalized to the empty list. -/
def mkColumnSet (columns : ColumnsVal) : Except String ColumnSet :=
  if !columns.truthy then
    .error "Columns must be a list of strings or a value of True"
  else
    match columns with
    | .bool _ => .ok ⟨.list []⟩
    | .list cols => .ok ⟨.list cols⟩

/-- `ConditionOperator` (StrEnum): constructor per member, `value` below. -/
inductive ConditionOperator where
  | EQUAL | NOT_EQUAL | GREATER | GREATER_EQUAL | LESS | LESS_EQUAL
  | BEGINS_WITH | DOES_NOT_BEGIN_WITH | ENDS_WITH | DOES_NOT_END_WITH
  | IN | NOT_IN | NULL | NOT_NULL | LIKE | NOT_LIKE
deriving DecidableEq

def ConditionOperator.value : ConditionOperator → String
  | .EQUAL => "eq"
  | .NOT_EQUAL => "ne"
  | .GREATER => "gt"
  | .GREATER_EQUAL => "ge"
  | .LESS => "lt"
  | .LESS_EQUAL => "le"
  | .BEGINS_WITH => "begins-with"
  | .DOES_NOT_BEGIN_WITH => "not-begin-with"
  | .ENDS_WITH => "ends-with"
  | .DOES_NOT_END_WITH => "not-ends-with"
  | .IN => "in"
  | .NOT_IN => "not-in"
  | .NULL => "null"
  | .NOT_NULL => "not-null"
  | .LIKE => "like"
  | .NOT_LIKE => "not-like"

/-- The `value` payload of a condition: a scalar or a list of scalars
(`Union[List[Any], bool, int, float, str, uuid.UUID, None]`; `None` is the
`none` of the surrounding `Option`). -/
inductive CondValue where
  | prim (p : Prim)
  | list (vs : List Prim)
deriving DecidableEq

def CondValue.truthy : CondValue → Bool
  | .prim p => p.truthy
  | .list vs => !vs.isEmpty

def condValueTruthy : Option CondValue → Bool
  | none => false
  | some v => v.truthy

structure ConditionExpression where
  attribute_name : String
  operator : ConditionOperator
  value : Option CondValue
deriving DecidableEq

/-- `ConditionExpression.__post_init__`.  The operator is an enum member and
hence always truthy, so the `if not self.operator` guard is dead code.  The
isinstance check on the value never fails in this model (all scalars are
representable). -/
def mkConditionExpression (attribute_name : String) (operator : ConditionOperator)
    (value : Option CondValue) : Except String ConditionExpression :=
  if attribute_name = "" then .error "Attribute name is required"
  else
    let value : Option CondValue :=
      if !condValueTruthy value then none
      else match value with
        | some (.prim p) => some (.list [p])
        | some (.list vs) => some (.list vs)
        | none => none
    if operator = .NULL ∨ operator = .NOT_NULL then
      .ok ⟨attribute_name, operator, none⟩
    else if operator = .IN ∨ operator = .NOT_IN then
      if !condValueTruthy value then
        .error "Value are required for IN/NOT IN operators"
      else
        match value with
        | some (.list vs) =>
            if vs.length = 0 then
              .error "Value must contain at least one value for IN/NOT IN operators"
            else if vs.length > 500 then
              .error "Value must contain less than 500 value for IN/NOT IN operators"
            else .ok ⟨attribute_name, operator, value⟩
        | _ => .ok ⟨attribute_name, operator, value⟩
    else .ok ⟨attribute_name, operator, value⟩

/-- `FilterOperator` (StrEnum). -/
inductive FilterOperator where
  | AND
  | OR
deriving DecidableEq

def FilterOperator.value : FilterOperator → String
  | .AND => "AND"
  | .OR => "OR"

mutual
/-- `FilterExpression`: combinator, conditions, nested filters.  The nested
filter list is a mutually-defined list type so that the recursive compiler
below is structurally recursive. -/
inductive FilterExpression where
  | mk (filter_operator : FilterOperator) (conditions : List ConditionExpression)
      (filters : FilterList)
inductive FilterList where
  | nil
  | cons (f : FilterExpression) (fs : FilterList)
end

def FilterExpression.filter_operator : FilterExpression → FilterOperator
  | .mk op _ _ => op

def FilterExpression.conditions : FilterExpression → List ConditionExpression
  | .mk _ cs _ => cs

def FilterExpression.filters : FilterExpression → FilterList
  | .mk _ _ fs => fs

/-- `OrderType` (StrEnum). -/
inductive OrderType where
  | ASC
  | DESC
deriving DecidableEq

structure OrderExpression where
  attribute_name : String
  order_type : OrderType
deriving DecidableEq

/-- `JoinOperator` (StrEnum). -/
inductive JoinOperator where
  | INNER | OUTER | ANY | NOT_ANY | ALL | NOT_ALL | EXISTS
  | MATCH_FIRST_ROW_USING_CROSS_APPLY
deriving DecidableEq

def JoinOperator.value : JoinOperator → String
  | .INNER => "inner"
  | .OUTER => "outer"
  | .ANY => "any"
  | .NOT_ANY => "not any"
  | .ALL => "all"
  | .NOT_ALL => "not all"
  | .EXISTS => "exists"
  | .MATCH_FIRST_ROW_USING_CROSS_APPLY => "matchfirstrowusingcrossapply"

mutual
/-- `LinkEntity` with a mutually-defined list type for its nested links. -/
inductive LinkEntity where
  | mk (link_from_entity_name : String) (link_from_attribute_name : String)
      (link_to_entity_name : String) (link_to_attribute_name : String)
      (join_operator : JoinOperator) (columns : Option ColumnSet)
      (link_criteria : Option FilterExpression) (link_entities : LinkList)
inductive LinkList where
  | nil
  | cons (l : LinkEntity) (ls : LinkList)
end

def LinkEntity.link_to_entity_name : LinkEntity → String
  | .mk _ _ n _ _ _ _ _ => n

def LinkEntity.link_from_attribute_name : LinkEntity → String
  | .mk _ a _ _ _ _ _ _ => a

def LinkEntity.link_to_attribute_name : LinkEntity → String
  | .mk _ _ _ a _ _ _ _ => a

def LinkEntity.join_operator : LinkEntity → JoinOperator
  | .mk _ _ _ _ j _ _ _ => j

def LinkEntity.columns : LinkEntity → Option ColumnSet
  | .mk _ _ _ _ _ c _ _ => c

def LinkEntity.link_criteria : LinkEntity → Option FilterExpression
  | .mk _ _ _ _ _ _ f _ => f

def LinkEntity.link_entities : LinkEntity → LinkList
  | .mk _ _ _ _ _ _ _ ls => ls

/-- `QueryExpression` (the `fetch_xml` field cached by `__post_init__` is
produced by `mkQueryExpression` below). -/
structure QueryExpression where
  entity_name : String
  column_set : ColumnSet
  criteria : Option FilterExpression
  orders : List OrderExpression
  link_entities : LinkList
  top_count : Option Int
  distinct : Bool

/-! ## FetchXML compiler (`src/datapyrse/query/_query_expression.py`) -/

/-- One iteration of the condition loop in `_filter_to_fetchxml`: the
`condition` element is created with attributes `attribute`, `operator` and
`value=""`; then, depending on the operator and the value payload, child
`value` elements are appended, or the `value` attribute is overwritten
in place (Python `str()` of `None` is `"None"`), or a `ValueError` is
raised. -/
def renderCondition (condition : ConditionExpression) : Except String Element :=
  let condition_element : Element :=
    .mk "condition"
      [("attribute", condition.attribute_name),
       ("operator", pyLower condition.operator.value),
       ("value", "")] "" .nil
  if (condition.operator = .IN ∨ condition.operator = .NOT_IN)
      && condValueTruthy condition.value
      && (match condition.value with | some (.list _) => true | _ => false) then
    match condition.value with
    | some (.list vs) =>
        .ok (.mk condition_element.tag condition_element.attribs ""
          (ElementList.ofList (vs.map (fun v => .mk "value" [] v.pyStr .nil))))
    | _ => .ok condition_element
  else
    match condition.value with
    | none => .ok (condition_element.setAttr "value" (pyStrOfGet none))
    | some (.prim p) => .ok (condition_element.setAttr "value" p.pyStr)
    | some (.list vs) =>
        if vs.length = 1 then
          .ok (condition_element.setAttr "value" (vs.headD .null).pyStr)
        else
          .error "Condition value can only be a list of length more than one for IN and NOT IN operators"

def renderConditions : List ConditionExpression → Except String (List Element)
  | [] => .ok []
  | c :: cs =>
      match renderCondition c with
      | .error e => .error e
      | .ok el =>
          match renderConditions cs with
          | .error e => .error e
          | .ok els => .ok (el :: els)

mutual
/-- `_filter_to_fetchxml`. -/
def filter_to_fetchxml (filter_expression : FilterExpression) : Except String Element :=
  match filter_expression with
  | .mk filter_operator conditions filters =>
      match renderConditions conditions with
      | .error e => .error e
      | .ok condEls =>
          match filters_to_fetchxml filters with
          | .error e => .error e
          | .ok subEls =>
              .ok (.mk "filter" [("type", pyLower filter_operator.value)] ""
                (ElementList.ofList (condEls ++ subEls)))
termination_by structural filter_expression

def filters_to_fetchxml : FilterList → Except String (List Element)
  | .nil => .ok []
  | .cons f fs =>
      match filter_to_fetchxml f with
      | .error e => .error e
      | .ok el =>
          match filters_to_fetchxml fs with
          | .error e => .error e
          | .ok els => .ok (el :: els)
termination_by structural fs => fs
end

/-- Columns of a link entity (`_link_entity_to_fetchxml`): all-attributes
only when `columns.columns` is the boolean `True` (a value `ColumnSet.__post_init__`
can never leave in place), one `attribute` element per column when it is a
list, nothing otherwise. -/
def linkColumnsChildren (columns : Option ColumnSet) : List Element :=
  match columns with
  | none => []
  | some cs =>
      match cs.columns with
      | .bool true => [.mk "all-attributes" [] "" .nil]
      | .bool false => []
      | .list cols => cols.map (fun c => .mk "attribute" [("name", c)] "" .nil)

mutual
/-- `_link_entity_to_fetchxml`.  Note the literal `from_` attribute name:
the source passes the Python keyword-safe `from_=` to `ET.Element`, so the
serialized attribute is named `from_`. -/
def link_entity_to_fetchxml (link_entity : LinkEntity) : Except String Element :=
  match link_entity with
  | .mk _ link_from_attribute_name link_to_entity_name link_to_attribute_name
      join_operator columns link_criteria link_entities =>
      let colEls := linkColumnsChildren columns
      match (match link_criteria with
             | none => Except.ok ([] : List Element)
             | some f =>
                 match filter_to_fetchxml f with
                 | .error e => .error e
                 | .ok el => .ok [el]) with
      | .error e => .error e
      | .ok filterEls =>
          match link_entities_to_fetchxml link_entities with
          | .error e => .error e
          | .ok nestedEls =>
              .ok (.mk "link-entity"
                [("name", link_to_entity_name),
                 ("from_", link_from_attribute_name),
                 ("to", link_to_attribute_name),
                 ("linktype", pyLower join_operator.value)] ""
                (ElementList.ofList (colEls ++ filterEls ++ nestedEls)))
termination_by structural link_entity

def link_entities_to_fetchxml : LinkList → Except String (List Element)
  | .nil => .ok []
  | .cons l ls =>
      match link_entity_to_fetchxml l with
      | .error e => .error e
      | .ok el =>
          match link_entities_to_fetchxml ls with
          | .error e => .error e
          | .ok els => .ok (el :: els)
termination_by structural ls => ls
end

/-- Truthiness of `top_count` (`if query.top_count:`). -/
def topTruthy : Option Int → Bool
  | none => false
  | some n => n ≠ 0

/-- `_query_expression_to_fetchxml`: build the `fetch`/`entity` tree in
document order and serialize it with `ET.tostring(_, encoding="unicode")`. -/
def query_expression_to_fetchxml (query : QueryExpression) : Except String String :=
  let fetchAttribs :=
    [("version", "1.0"), ("outputformat", "xml-platform"), ("mapping", "logical"),
     ("distinct", pyLower (Prim.bool query.distinct).pyStr)]
  let fetchAttribs :=
    if topTruthy query.top_count then
      dictSet fetchAttribs "top" (toString (query.top_count.getD 0))
    else fetchAttribs
  match query.column_set.columns with
  | .bool _ => .error "Columns must be a list of strings"
  | .list cols =>
      let colEls : List Element :=
        if cols = [] then [.mk "all-attributes" [] "" .nil]
        else cols.map (fun c => .mk "attribute" [("name", c)] "" .nil)
      match (match query.criteria with
             | none => Except.ok ([] : List Element)
             | some f =>
                 match filter_to_fetchxml f with
                 | .error e => .error e
                 | .ok el => .ok [el]) with
      | .error e => .error e
      | .ok filterEls =>
          let orderEls : List Element :=
            query.orders.map (fun o =>
              .mk "order"
                [("attribute", o.attribute_name),
                 ("descending", if o.order_type = .DESC then "true" else "false")] "" .nil)
          match link_entities_to_fetchxml query.link_entities with
          | .error e => .error e
          | .ok linkEls =>
              let entity : Element :=
                .mk "entity" [("name", query.entity_name)] ""
                  (ElementList.ofList (colEls ++ filterEls ++ orderEls ++ linkEls))
              .ok (Element.serialize
                (.mk "fetch" fetchAttribs "" (.cons entity .nil)))

/-- `QueryExpression.__post_init__`: validates the entity name and top count
and caches `fetch_xml` (the `if not self.column_set` guard is dead code,
a dataclass instance being always truthy). -/
def mkQueryExpression (entity_name : String) (column_set : ColumnSet)
    (criteria : Option FilterExpression) (orders : List OrderExpression)
    (link_entities : LinkList) (top_count : Option Int) (distinct : Bool) :
    Except String (QueryExpression × String) :=
  if entity_name = "" then .error "Entity name is required"
  else if (match top_count with | some n => decide (n < 1) | none => false) then
    .error "Top count must be greater than 0"
  else
    let q : QueryExpression :=
      ⟨entity_name, column_set, criteria, orders, link_entities, top_count, distinct⟩
    match query_expression_to_fetchxml q with
    | .error e => .error e
    | .ok xml => .ok (q, xml)

/-! ## Metadata model (`src/datapyrse/_entity_metadata.py`) -/

structure OneToManyRelationshipMetadata where
  referenced_attribute : String
  referenced_entity : String
  referenced_entity_navigation_property_name : String
  referencing_attribute : String
  referencing_entity : String
  referencing_entity_navigation_property_name : String
  schema_name : String
deriving DecidableEq

structure ManyToOneRelationshipMetadata where
  referenced_attribute : String
  referenced_entity : String
  referenced_entity_navigation_property_name : String
  referencing_attribute : String
  referencing_entity : String
  referencing_entity_navigation_property_name : String
  schema_name : String
deriving DecidableEq

structure ManyToManyRelationshipMetadata where
  entity_1_intersect_attribute : String
  entity_1_logical_name : String
  entity_1_navigation_property_name : String
  entity_2_intersect_attribute : String
  entity_2_logical_name : String
  entity_2_navigation_property_name : String
  schema_name : String
  intersect_entity_name : String
deriving DecidableEq

structure AttributeMetadata where
  logical_name : Option String
  attribute_type : Option String
  schema_name : Option String
deriving DecidableEq

/-- `EntityMetadata`.  The `Optional[List[...]]` relationship fields are
modelled as plain lists (`None` and `[]` are only ever distinguished by
truthiness in the source, and both are falsy). -/
structure EntityMetadata where
  attributes : List AttributeMetadata
  logical_name : Option String
  logical_collection_name : Option String
  schema_name : Option String
  primary_id_attribute : Option String
  primary_name_attribute : Option String
  one_to_many_relationships : List OneToManyRelationshipMetadata
  many_to_one_relationships : List ManyToOneRelationshipMetadata
  many_to_many_relationships : List ManyToManyRelationshipMetadata
deriving DecidableEq

structure OrgMetadata where
  entities : List EntityMetadata
  contains_relationships : Bool
deriving DecidableEq

/-! ## EntityReference / OptionSet / Entity
(`src/datapyrse/_entity_reference.py`, `src/datapyrse/models/option_set.py`,
`src/datapyrse/_entity.py`) -/

/-- An `entity_id` handed to the `EntityReference` constructor: an already
constructed `uuid.UUID` (held canonically as 32 lowercase hex chars), a raw
string still to be parsed, or `None`. -/
inductive EntityIdIn where
  | uuidV (h : String)
  | strV (s : String)
  | noneV
deriving DecidableEq

/-- `EntityReference` after construction: the id, when present, is a
`uuid.UUID` held as its canonical 32-char lowercase hex string. -/
structure EntityReference where
  entity_logical_name : String
  entity_id : Option String
  name : Option String
deriving DecidableEq

/-- `EntityReference.__post_init__`: requires a non-empty logical name;
a string id must parse as a UUID. -/
def mkEntityReference (entity_logical_name : String) (entity_id : EntityIdIn)
    (name : Option String) : Except String EntityReference :=
  if entity_logical_name = "" then
    .error "EntityReference entity_logical_name of type string is required."
  else
    match entity_id with
    | .noneV => .ok ⟨entity_logical_name, none, name⟩
    | .uuidV h => .ok ⟨entity_logical_name, some h, name⟩
    | .strV s =>
        match uuidParse s with
        | some h => .ok ⟨entity_logical_name, some h, name⟩
        | none =>
            .error "EntityReference entity_id of type UUID or compatible string is required."

/-- `str(self.entity_id)` on an optional UUID: `str(None) = "None"`. -/
def pyStrEntityId : Option String → String
  | none => "None"
  | some h => uuidToStr h

/-- `OptionSet`: both fields default to Python `None` (`Prim.null`); the
label keeps the raw companion value, un-stringified. -/
structure OptionSet where
  label : Prim
  value : Prim
deriving DecidableEq

/-- An in-memory entity attribute value: a scalar, an `EntityReference`, or
an `OptionSet`. -/
inductive Attr where
  | prim (p : Prim)
  | ref (r : EntityReference)
  | opt (o : OptionSet)
deriving DecidableEq

/-- `Entity`: logical name, optional id (canonical hex), insertion-ordered
attribute map. -/
structure Entity where
  entity_logical_name : String
  entity_id : Option String
  attributes : List (String × Attr)
deriving DecidableEq

/-! ## Attribute codec, decode direction (`Entity._parse_attributes`) -/

/-- The wire key of the lookup-logical-name companion of a base key. -/
def lookupLogicalNameKey (base : String) : String :=
  base ++ "@Microsoft.Dynamics.CRM.lookuplogicalname"

/-- The wire key of the formatted-value companion of a base key. -/
def formattedValueKey (base : String) : String :=
  base ++ "@OData.Community.Display.V1.FormattedValue"

/-- `isinstance(v, int)` in Python: `bool` is a subclass of `int`. -/
def Prim.isInstInt : Prim → Bool
  | .int _ => true
  | .bool _ => true
  | _ => false

/-- The per-key guard chain of `Entity._parse_attributes`, folded over the
payload's keys in order.  `origMap` is the original attribute dict (the loop
reads companions through `self.attributes.get`), `eid` the entity id
accumulated so far, `acc` the `parsed_attributes` dict built so far. -/
def parseAttributesGo (logical : String) (origMap : List (String × Prim)) :
    List String → Option String → List (String × Attr) →
    Except String (Option String × List (String × Attr))
  | [], eid, acc => .ok (eid, acc)
  | attrKey :: rest, eid, acc =>
      if pyStartsWith attrKey "@" then
        parseAttributesGo logical origMap rest eid acc
      else if pyStartsWith attrKey "_" && pyEndsWith attrKey "_value" then
        match dictGet origMap attrKey with
        | none => parseAttributesGo logical origMap rest eid acc
        | some v =>
            if !v.truthy then parseAttributesGo logical origMap rest eid acc
            else
              let attribute_name := pyDropRight (pyDrop attrKey 1) 6
              match pyUUID v with
              | .error e => .error e
              | .ok h =>
                  match mkEntityReference
                      (pyStrOfGet (dictGet origMap (lookupLogicalNameKey attrKey)))
                      (.uuidV h)
                      (some (pyStrOfGet (dictGet origMap (formattedValueKey attrKey)))) with
                  | .error e => .error e
                  | .ok r =>
                      parseAttributesGo logical origMap rest eid
                        (dictSet acc attribute_name (.ref r))
      else if (match dictGet origMap attrKey with
               | some v => v.isInstInt
               | none => false)
          && (dictGet origMap (formattedValueKey attrKey)).isSome then
        let value := (dictGet origMap attrKey).getD .null
        let label := (dictGet origMap (formattedValueKey attrKey)).getD .null
        parseAttributesGo logical origMap rest eid
          (dictSet acc attrKey (.opt ⟨label, value⟩))
      else if logical ++ "id" = attrKey then
        match pyUUID ((dictGet origMap attrKey).getD .null) with
        | .error e => .error e
        | .ok h =>
            parseAttributesGo logical origMap rest (some h)
              (dictSet acc attrKey (.prim ((dictGet origMap attrKey).getD .null)))
      else
        parseAttributesGo logical origMap rest eid
          (dictSet acc attrKey (.prim ((dictGet origMap attrKey).getD .null)))

/-- `Entity(entity_logical_name=..., attributes=<wire JSON object>)`:
`__post_init__` leaves an empty dict alone and otherwise replaces the
attribute dict by `_parse_attributes(list(self.attributes.keys()))`. -/
def decodeEntity (entity_logical_name : String) (attributes : List (String × Prim)) :
    Except String Entity :=
  if attributes.isEmpty then .ok ⟨entity_logical_name, none, []⟩
  else
    match parseAttributesGo entity_logical_name attributes (attributes.map (·.1)) none [] with
    | .error e => .error e
    | .ok (eid, parsed) => .ok ⟨entity_logical_name, eid, parsed⟩

/-! ## Attribute codec, encode direction
(`src/datapyrse/utils/_dataverse.py` `parse_entity_to_web_api_body`) -/

/-- `get_entity_metadata`. -/
def get_entity_metadata (entity_logical_name : String) (org_metadata : OrgMetadata) :
    Except String EntityMetadata :=
  if org_metadata.entities.isEmpty then
    .error "Organization metadata entities not found"
  else
    match org_metadata.entities.find?
        (fun data => data.logical_name == some entity_logical_name) with
    | none => .error ("Entity metadata not found for entity: " ++ entity_logical_name)
    | some m => .ok m

/-- The per-attribute loop of `parse_entity_to_web_api_body`. -/
def encodeAttributesGo (entity_metadata : EntityMetadata) (org_metadata : OrgMetadata) :
    List (String × Attr) → List (String × Prim) →
    Except String (List (String × Prim))
  | [], acc => .ok acc
  | (attr, value) :: rest, acc =>
      match value with
      | .ref r =>
          match entity_metadata.attributes.find?
              (fun data => data.logical_name == some attr) with
          | none => .error ("Attribute metadata not found for column: " ++ attr)
          | some attribute_metadata =>
              if attribute_metadata.attribute_type ≠ some "Lookup" then
                .error ("Attribute metadata not found for column: " ++ attr)
              else
                let binding_to : Option String :=
                  match org_metadata.entities.find?
                      (fun data => data.logical_name == some r.entity_logical_name) with
                  | none => none
                  | some data => data.logical_collection_name
                match binding_to with
                | none =>
                    .error ("Entity collection name not found for entity: "
                      ++ r.entity_logical_name)
                | some b =>
                    if b = "" then
                      .error ("Entity collection name not found for entity: "
                        ++ r.entity_logical_name)
                    else
                      encodeAttributesGo entity_metadata org_metadata rest
                        (dictSet acc (attribute_metadata.schema_name.getD "None" ++ "@odata.bind")
                          (.str ("/" ++ b ++ "(" ++ pyStrEntityId r.entity_id ++ ")")))
      | .opt o =>
          encodeAttributesGo entity_metadata org_metadata rest (dictSet acc attr o.value)
      | .prim p =>
          encodeAttributesGo entity_metadata org_metadata rest (dictSet acc attr p)

/-- `parse_entity_to_web_api_body`: `None` is the "entity has no attributes
to parse" result.  The `if not entity` and `if not org_metadata` guards are
dead code (dataclass instances are truthy) and the
`if not entity_metadata` re-check after `get_entity_metadata` is unreachable
(that call already raises). -/
def parse_entity_to_web_api_body (entity : Entity) (org_metadata : OrgMetadata) :
    Except String (Option (List (String × Prim))) :=
  if entity.attributes.isEmpty then .ok none
  else
    match get_entity_metadata entity.entity_logical_name org_metadata with
    | .error e => .error e
    | .ok entity_metadata =>
        if entity_metadata.attributes.isEmpty then
          .error "Entity metadata attributes not found"
        else
          match encodeAttributesGo entity_metadata org_metadata entity.attributes [] with
          | .error e => .error e
          | .ok body => .ok (some body)

/-! ## Relationship resolver (`src/datapyrse/messages/_relate.py`) -/

structure EntityReferenceCollection where
  entity_logical_name : String
  entity_references : List EntityReference
deriving DecidableEq

/-- The resolved relationship: one of the three metadata variants. -/
inductive RelMeta where
  | oneToMany (r : OneToManyRelationshipMetadata)
  | manyToOne (r : ManyToOneRelationshipMetadata)
  | manyToMany (r : ManyToManyRelationshipMetadata)
deriving DecidableEq

/-- `RelateRequest` (the `__post_init__` presence checks on the three
dataclass fields are dead code, dataclass instances being truthy). -/
structure RelateRequest where
  primary_record : EntityReference
  related_records : EntityReferenceCollection
  org_metadata : OrgMetadata
  relationship_name : Option String
deriving DecidableEq

/-- `self.related_records.entity_references[0].entity_logical_name`.  The
collection's `__post_init__` guarantees a non-empty list; on the empty list
(where Python would raise `IndexError`) this total model returns `""`. -/
def relatedFirstName (req : RelateRequest) : String :=
  match req.related_records.entity_references with
  | [] => ""
  | r :: _ => r.entity_logical_name

/-- The entity-metadata lookup of `validate_relationship_name`: the first
entity whose logical name equals the primary record's logical name or occurs
among the related records' logical names. -/
def findValidateEntityMetadata (req : RelateRequest) : Option EntityMetadata :=
  req.org_metadata.entities.find? (fun entity =>
    entity.logical_name == some req.primary_record.entity_logical_name
    || (req.related_records.entity_references.map (·.entity_logical_name)).any
        (fun n => entity.logical_name == some n))

/-- The one-to-many entries `validate_relationship_name` treats as matches:
the primary record is the referenced entity, the first related record the
referencing entity, and the schema name compares case-insensitively. -/
def validateOneToManyMatches (req : RelateRequest) (nm : String)
    (em : EntityMetadata) : List OneToManyRelationshipMetadata :=
  em.one_to_many_relationships.filter (fun r =>
    r.referenced_entity == req.primary_record.entity_logical_name
    && r.referencing_entity == relatedFirstName req
    && pyLower r.schema_name == pyLower nm)

/-- The many-to-one entries `validate_relationship_name` treats as matches:
the same orientation as the one-to-many case (primary record as referenced
entity, first related record as referencing entity), not the mirrored one. -/
def validateManyToOneMatches (req : RelateRequest) (nm : String)
    (em : EntityMetadata) : List ManyToOneRelationshipMetadata :=
  em.many_to_one_relationships.filter (fun r =>
    r.referenced_entity == req.primary_record.entity_logical_name
    && r.referencing_entity == relatedFirstName req
    && pyLower r.schema_name == pyLower nm)

/-- The many-to-many entries `validate_relationship_name` treats as matches:
only the ordering entity-1 = primary record, entity-2 = first related
record. -/
def validateManyToManyMatches (req : RelateRequest) (nm : String)
    (em : EntityMetadata) : List ManyToManyRelationshipMetadata :=
  em.many_to_many_relationships.filter (fun r =>
    r.entity_1_logical_name == req.primary_record.entity_logical_name
    && r.entity_2_logical_name == relatedFirstName req
    && pyLower r.schema_name == pyLower nm)

/-- The `if <matches> and len(<matches>) == 1: return <matches>[0]` step of
`validate_relationship_name`: apply `f` to the sole element of a singleton
list, otherwise fall through. -/
def singleOrElse {a b : Type} (l : List a) (f : a → b) (fallthrough : b) : b :=
  match l with
  | [x] => f x
  | _ => fallthrough

/-- `RelateRequest.validate_relationship_name`: explicit-name resolution.
Each kind's list is filtered on roles and case-insensitive schema name; a
filtered list of length exactly one returns, anything else falls through to
the next kind, and `None` is returned when no kind yields exactly one. -/
def validate_relationship_name (req : RelateRequest) : Except String (Option RelMeta) :=
  match req.relationship_name with
  | none => .error "Relationship name is required"
  | some nm =>
      if nm = "" then .error "Relationship name is required"
      else if req.org_metadata.entities.isEmpty
          || !req.org_metadata.contains_relationships then
        .error "No entities or relationships found in organization metadata"
      else
        match findValidateEntityMetadata req with
        | none =>
            .error ("Entity metadata not found for "
              ++ req.primary_record.entity_logical_name)
        | some entity_metadata =>
            singleOrElse (validateOneToManyMatches req nm entity_metadata)
              (fun r => .ok (some (.oneToMany r)))
              (singleOrElse (validateManyToOneMatches req nm entity_metadata)
                (fun r => .ok (some (.manyToOne r)))
                (singleOrElse (validateManyToManyMatches req nm entity_metadata)
                  (fun r => .ok (some (.manyToMany r)))
                  (.ok none)))

/-- The entity-metadata lookup of `parse_relationship_name`: first entity
whose logical name equals the primary record's logical name. -/
def findParseEntityMetadata (req : RelateRequest) : Option EntityMetadata :=
  req.org_metadata.entities.find? (fun entity =>
    entity.logical_name == some req.primary_record.entity_logical_name)

/-- One-to-many candidates collected by `parse_relationship_name` (empty
when the primary entity's metadata is not found). -/
def possibleOneToMany (req : RelateRequest) : List OneToManyRelationshipMetadata :=
  match findParseEntityMetadata req with
  | none => []
  | some em =>
      em.one_to_many_relationships.filter (fun r =>
        r.referenced_entity == req.primary_record.entity_logical_name
        && r.referencing_entity == relatedFirstName req)

/-- Many-to-one candidates collected by `parse_relationship_name`: the
filter uses the same orientation as the one-to-many case — the primary
record as the referenced entity, the first related record as the
referencing entity — not the mirrored orientation. -/
def possibleManyToOne (req : RelateRequest) : List ManyToOneRelationshipMetadata :=
  match findParseEntityMetadata req with
  | none => []
  | some em =>
      em.many_to_one_relationships.filter (fun r =>
        r.referenced_entity == req.primary_record.entity_logical_name
        && r.referencing_entity == relatedFirstName req)

/-- Many-to-many candidates collected by `parse_relationship_name`: only
the ordering entity-1 = primary record, entity-2 = first related record is
accepted. -/
def possibleManyToMany (req : RelateRequest) : List ManyToManyRelationshipMetadata :=
  match findParseEntityMetadata req with
  | none => []
  | some em =>
      em.many_to_many_relationships.filter (fun r =>
        r.entity_1_logical_name == req.primary_record.entity_logical_name
        && r.entity_2_logical_name == relatedFirstName req)

/-- `RelateRequest.parse_relationship_name`: no-explicit-name resolution.
Returns `(schema name, relationship)` on success and `(None, None)` on any
failure to infer a single relationship. -/
def parse_relationship_name (req : RelateRequest) :
    Except String (Option String × Option RelMeta) :=
  if req.org_metadata.entities.isEmpty then
    .error "No entities found in organization metadata"
  else
    match findParseEntityMetadata req with
    | none => .ok (none, none)
    | some _ =>
        let p1 := possibleOneToMany req
        let p2 := possibleManyToOne req
        let p3 := possibleManyToMany req
        if p3.length > 1 || p2.length > 1 || p1.length > 1 then
          .ok (none, none)
        else
          match p1, p2, p3 with
          | r :: _, [], [] => .ok (some r.schema_name, some (.oneToMany r))
          | [], r :: _, [] => .ok (some r.schema_name, some (.manyToOne r))
          | [], [], r :: _ => .ok (some r.schema_name, some (.manyToMany r))
          | _, _, _ => .ok (none, none)

/-- Modelled from the spec: the one-to-many role rule of the
relationship-disambiguation algorithm — the primary record is the
referenced entity and the related record the referencing entity.  This
coincides with the filter `parse_relationship_name` actually applies;
it is stated separately so the code's candidate sets can be compared
with the specified ones. -/
def specRoleOneToManyCandidates (req : RelateRequest) :
    List OneToManyRelationshipMetadata :=
  match findParseEntityMetadata req with
  | none => []
  | some em =>
      em.one_to_many_relationships.filter (fun r =>
        r.referenced_entity == req.primary_record.entity_logical_name
        && r.referencing_entity == relatedFirstName req)

/-- Modelled from the spec: the many-to-one role rule of the
relationship-disambiguation algorithm is the *mirror* of the one-to-many
rule — the primary record is the referencing entity and the related record
the referenced entity.  `parse_relationship_name` does not use this rule
(its filter keeps the one-to-many orientation). -/
def specRoleManyToOneCandidates (req : RelateRequest) :
    List ManyToOneRelationshipMetadata :=
  match findParseEntityMetadata req with
  | none => []
  | some em =>
      em.many_to_one_relationships.filter (fun r =>
        r.referencing_entity == req.primary_record.entity_logical_name
        && r.referenced_entity == relatedFirstName req)

/-- Modelled from the spec: the many-to-many role rule of the
relationship-disambiguation algorithm accepts either ordering of
entity-1/entity-2.  `parse_relationship_name` does not use this rule (its
filter accepts only entity-1 = primary, entity-2 = related). -/
def specRoleManyToManyCandidates (req : RelateRequest) :
    List ManyToManyRelationshipMetadata :=
  match findParseEntityMetadata req with
  | none => []
  | some em =>
      em.many_to_many_relationships.filter (fun r =>
        (r.entity_1_logical_name == req.primary_record.entity_logical_name
          && r.entity_2_logical_name == relatedFirstName req)
        || (r.entity_1_logical_name == relatedFirstName req
          && r.entity_2_logical_name == req.primary_record.entity_logical_name))

/-- A wire payload holding one lookup-patterned key and, optionally, its
lookup-logical-name and formatted-value companion keys. -/
def lookupOnlyPayload (k s : String) (ln fv : Option String) : List (String × Prim) :=
  (k, .str s) ::
    ((match ln with
      | none => []
      | some x => [(lookupLogicalNameKey k, Prim.str x)]) ++
     (match fv with
      | none => []
      | some y => [(formattedValueKey k, Prim.str y)]))

/-! ## Shared helper lemmas -/

theorem ElementList.toList_ofList (l : List Element) :
    (ElementList.ofList l).toList = l := by
  induction l with
  | nil => rfl
  | cons e es ih => simp [ElementList.ofList, ElementList.toList, ih]

/-! ## C5: IN-operator cardinality bounds -/

set_option maxRecDepth 4000 in
/-- C5: constructing a `ConditionExpression` with operator IN and an empty
value list fails, with exactly 500 elements succeeds, and with 501 elements
fails. -/
theorem in_operator_bounds :
    (∃ e, mkConditionExpression "att" .IN (some (.list [])) = .error e)
    ∧ (∃ c, mkConditionExpression "att" .IN
        (some (.list (List.replicate 500 (.str "v")))) = .ok c)
    ∧ (∃ e, mkConditionExpression "att" .IN
        (some (.list (List.replicate 501 (.str "v")))) = .error e) :=
  ⟨⟨_, rfl⟩, ⟨_, rfl⟩, ⟨_, rfl⟩⟩

/-! ## C3: all-columns FetchXML text -/

/-- C3 counterexample: the compiled text of
`QueryExpression(entity_name="contact", column_set=ColumnSet(True))` is not
the text claimed in the specification: `xml.etree.ElementTree` serializes the
empty `all-attributes` element as `<all-attributes />`, with a space before
the closing slash, while the claimed text has none.  The first conjunct shows
the all-columns sentinel (the column set normalizes to the empty list). -/
theorem fetchxml_all_columns_text_differs :
    mkColumnSet (.bool true) = .ok ⟨.list []⟩
    ∧ query_expression_to_fetchxml ⟨"contact", ⟨.list []⟩, none, [], .nil, none, false⟩ =
        .ok "<fetch version=\"1.0\" outputformat=\"xml-platform\" mapping=\"logical\" distinct=\"false\"><entity name=\"contact\"><all-attributes /></entity></fetch>"
    ∧ "<fetch version=\"1.0\" outputformat=\"xml-platform\" mapping=\"logical\" distinct=\"false\"><entity name=\"contact\"><all-attributes /></entity></fetch>"
      ≠ "<fetch version=\"1.0\" outputformat=\"xml-platform\" mapping=\"logical\" distinct=\"false\"><entity name=\"contact\"><all-attributes/></entity></fetch>" := by
  refine ⟨rfl, by rfl, by decide⟩

/-- C3 amended: compiling
`QueryExpression(entity_name="contact", column_set=ColumnSet(True), orders=[], link_entities=[])`
(whose column set is the normalized all-columns sentinel, first conjunct)
yields exactly the text below, with `<all-attributes />` serialized with a
space before the self-closing slash.  The compiler is a pure function of the
query tree, so compiling the same tree twice yields this same byte string
both times. -/
theorem fetchxml_all_columns_text :
    mkColumnSet (.bool true) = .ok ⟨.list []⟩
    ∧ mkQueryExpression "contact" ⟨.list []⟩ none [] .nil none false =
        .ok (⟨"contact", ⟨.list []⟩, none, [], .nil, none, false⟩,
          "<fetch version=\"1.0\" outputformat=\"xml-platform\" mapping=\"logical\" distinct=\"false\"><entity name=\"contact\"><all-attributes /></entity></fetch>")
    ∧ query_expression_to_fetchxml ⟨"contact", ⟨.list []⟩, none, [], .nil, none, false⟩ =
        query_expression_to_fetchxml ⟨"contact", ⟨.list []⟩, none, [], .nil, none, false⟩ := by
  refine ⟨rfl, by rfl, rfl⟩

/-! ## C9: all-columns sentinel on a link entity -/

/-- C9: a `LinkEntity` whose `ColumnSet` was constructed with boolean `True`
compiles to a `link-entity` element with no children at all — in particular
no `all-attributes` marker.  `ColumnSet.__post_init__` normalizes `True` to
the empty list (first conjunct), and `_link_entity_to_fetchxml` emits the
marker only for a boolean `True` payload, which can no longer occur; the
empty-list payload emits nothing. -/
theorem link_all_columns_sentinel_drops_marker :
    mkColumnSet (.bool true) = .ok ⟨.list []⟩
    ∧ link_entity_to_fetchxml
        (.mk "contact" "contactid" "account" "accountid" .INNER (some ⟨.list []⟩) none .nil) =
      .ok (.mk "link-entity"
        [("name", "account"), ("from_", "contactid"), ("to", "accountid"), ("linktype", "inner")]
        "" .nil) := by
  refine ⟨rfl, by rfl⟩

/-! ## C2: rendering of is-null / is-not-null conditions -/

/-- C2 counterexample: a filter holding the condition
`ConditionExpression("name", NULL, None)` compiles to a `condition` element
that carries a `value` attribute equal to `"None"` (the loop creates the
element with `value=""` and then overwrites it with `str(None)`), refuting
the claim that no value attribute is emitted. -/
theorem null_condition_renders_value_attr :
    filter_to_fetchxml (.mk .AND [⟨"name", .NULL, none⟩] .nil) =
      .ok (.mk "filter" [("type", "and")] ""
        (.cons (.mk "condition"
          [("attribute", "name"), ("operator", "null"), ("value", "None")] "" .nil) .nil))
    ∧ ("value", "None") ∈
        [("attribute", "name"), ("operator", "null"), ("value", "None")] := by
  refine ⟨by rfl, by decide⟩

/-! ## C7: scalar round-trip, counterexample part -/

set_option maxRecDepth 4000 in
/-- C7 counterexample: the wire object with the single plain scalar field
`contactid = "not-a-uuid"` (no annotation keys, no lookup-patterned keys)
does not round-trip: decoding already fails, because the key equals the
entity's own `<logical_name>id` key and its value does not parse as a UUID.
-/
theorem scalar_roundtrip_id_key_fails :
    decodeEntity "contact" [("contactid", .str "not-a-uuid")] =
      .error "badly formed hexadecimal UUID string" := by
  rfl

/-! ## C8: annotation keys, counterexample part -/

set_option maxRecDepth 8000 in
/-- C8 counterexample: decoding a lookup with both companion annotation keys
present retains the two companion keys themselves as scalar attributes of
the decoded entity: only keys beginning with `"@"` are skipped, and
companion keys begin with the base attribute name. -/
theorem annotation_companion_keys_retained :
    decodeEntity "account"
      [("_ownerid_value", .str "2f8a1b34-5c6d-4e7f-8a9b-0c1d2e3f4a5b"),
       ("_ownerid_value@Microsoft.Dynamics.CRM.lookuplogicalname", .str "systemuser"),
       ("_ownerid_value@OData.Community.Display.V1.FormattedValue", .str "Owner Name")] =
      .ok ⟨"account", none,
        [("ownerid", .ref ⟨"systemuser", some "2f8a1b345c6d4e7f8a9b0c1d2e3f4a5b", some "Owner Name"⟩),
         ("_ownerid_value@Microsoft.Dynamics.CRM.lookuplogicalname", .prim (.str "systemuser")),
         ("_ownerid_value@OData.Community.Display.V1.FormattedValue", .prim (.str "Owner Name"))]⟩ := by
  rfl

/-! ## C4: explicit-name resolution roles, counterexample part -/

set_option maxRecDepth 4000 in
/-- C4 counterexample: the organization metadata holds exactly one
many-to-one relationship, in the mirrored orientation the claim says is
matched (primary record `contact` as the referencing entity, related record
`account` as the referenced entity), with the exact schema name supplied;
yet `validate_relationship_name` resolves nothing, because its many-to-one
filter requires the primary record to be the *referenced* entity — the same
orientation as the one-to-many case, not the mirrored one. -/
theorem validate_mirrored_many_to_one_not_found :
    validate_relationship_name
      ⟨⟨"contact", some "00000000000000000000000000000001", none⟩,
       ⟨"account", [⟨"account", some "00000000000000000000000000000002", none⟩]⟩,
       ⟨[⟨[⟨some "name", some "String", some "Name"⟩], some "contact", some "contacts",
          none, none, none, [],
          [⟨"accountid", "account", "nav1", "parentaccountid", "contact", "nav2",
            "contact_account"⟩], []⟩], true⟩,
       some "contact_account"⟩ = .ok none := by
  rfl

/-! ## Rendering lemmas shared by the filter-compilation claims -/

theorem renderCondition_error_eq (c : ConditionExpression) (e : String)
    (h : renderCondition c = .error e) :
    e = "Condition value can only be a list of length more than one for IN and NOT IN operators" := by
  rcases c with ⟨a, op, v⟩
  rcases v with _ | ⟨p | vs⟩ <;>
    simp only [renderCondition] at h <;>
    split at h <;>
    simp_all <;>
    split at h <;>
    simp_all

theorem renderCondition_null (c : ConditionExpression)
    (hv : c.value = none) :
    renderCondition c = .ok (.mk "condition"
      [("attribute", c.attribute_name), ("operator", pyLower c.operator.value),
       ("value", "None")] "" .nil) := by
  rcases c with ⟨a, op, v⟩
  simp only at hv
  subst hv
  simp [renderCondition, condValueTruthy, Element.setAttr, Element.tag, Element.attribs,
    pyStrOfGet, dictSet]

theorem renderCondition_multi (c : ConditionExpression) (vs : List Prim)
    (hop1 : c.operator ≠ .IN) (hop2 : c.operator ≠ .NOT_IN)
    (hv : c.value = some (.list vs)) (hlen : vs.length ≠ 1) :
    renderCondition c =
      .error "Condition value can only be a list of length more than one for IN and NOT IN operators" := by
  rcases c with ⟨a, op, v⟩
  simp only at hop1 hop2 hv
  subst hv
  simp [renderCondition, hop1, hop2, hlen]

theorem renderConditions_error_of_mem (cs : List ConditionExpression)
    (c : ConditionExpression) (hc : c ∈ cs)
    (h : renderCondition c =
      .error "Condition value can only be a list of length more than one for IN and NOT IN operators") :
    renderConditions cs =
      .error "Condition value can only be a list of length more than one for IN and NOT IN operators" := by
  induction cs with
  | nil => cases hc
  | cons c0 cs ih =>
      rcases List.mem_cons.mp hc with heq | hmem
      · subst heq
        simp [renderConditions, h]
      · cases hrc : renderCondition c0 with
        | error e =>
            have := renderCondition_error_eq c0 e hrc
            subst this
            simp [renderConditions, hrc]
        | ok el =>
            simp [renderConditions, hrc, ih hmem]

theorem renderConditions_ok_mem : ∀ (cs : List ConditionExpression)
    (els : List Element), renderConditions cs = .ok els →
    ∀ c ∈ cs, ∀ el : Element, renderCondition c = .ok el → el ∈ els := by
  intro cs
  induction cs with
  | nil => intro els h c hc; cases hc
  | cons c0 cs ih =>
      intro els h c hc el hcel
      simp only [renderConditions] at h
      cases hrc : renderCondition c0 with
      | error e => simp [hrc] at h
      | ok el0 =>
          rw [hrc] at h
          cases hrest : renderConditions cs with
          | error e => simp [hrest] at h
          | ok els0 =>
              rw [hrest] at h
              cases h
              rcases List.mem_cons.mp hc with hquad | hmem
              · subst hquad
                rw [hrc] at hcel
                cases hcel
                exact List.mem_cons_self _ _
              · exact List.mem_cons_of_mem _ (ih els0 hrest c hmem el hcel)

/-! ## C2: rendering of is-null / is-not-null conditions, amended part -/

/-- C2 amended: in every successfully compiled filter, a condition whose
operator is is-null or is-not-null (whose value the constructor normalized
to `None`) is rendered as a `condition` element with *no* value children but
*with* a `value` attribute holding the string `"None"` — `str()` of the
absent Python value. -/
theorem null_condition_rendered_with_value_none
    (f : FilterExpression) (c : ConditionExpression) (el : Element)
    (hok : filter_to_fetchxml f = .ok el) (hc : c ∈ f.conditions)
    (hop : c.operator = .NULL ∨ c.operator = .NOT_NULL)
    (hv : c.value = none) :
    (Element.mk "condition"
      [("attribute", c.attribute_name), ("operator", pyLower c.operator.value),
       ("value", "None")] "" .nil) ∈ el.children.toList := by
  rcases f with ⟨fop, cs, fs⟩
  simp only [FilterExpression.conditions] at hc
  simp only [filter_to_fetchxml] at hok
  cases hrc : renderConditions cs with
  | error e => rw [hrc] at hok; cases hok
  | ok condEls =>
      rw [hrc] at hok
      cases hrf : filters_to_fetchxml fs with
      | error e => rw [hrf] at hok; cases hok
      | ok subEls =>
          rw [hrf] at hok
          cases hok
          simp only [Element.children, ElementList.toList_ofList]
          exact List.mem_append_left _
            (renderConditions_ok_mem cs condEls hrc c hc _ (renderCondition_null c hv))

/-- C2 amended, witness: a one-condition OR filter with a NOT_NULL condition. -/
theorem null_condition_rendered_with_value_none_witness :
    (Element.mk "condition"
      [("attribute", "col"), ("operator", "not-null"), ("value", "None")] "" .nil) ∈
      (Element.mk "filter" [("type", "or")] ""
        (.cons (.mk "condition"
          [("attribute", "col"), ("operator", "not-null"), ("value", "None")] "" .nil)
          .nil)).children.toList := by
  exact null_condition_rendered_with_value_none
    (.mk .OR [⟨"col", .NOT_NULL, none⟩] .nil)
    ⟨"col", .NOT_NULL, none⟩
    (.mk "filter" [("type", "or")] ""
      (.cons (.mk "condition"
        [("attribute", "col"), ("operator", "not-null"), ("value", "None")] "" .nil)
        .nil))
    (by rfl) (by simp [FilterExpression.conditions]) (Or.inr rfl) rfl

/-! ## C6: multi-element value list under a non-list operator -/

/-- C6: whenever a filter holds a condition whose operator is neither IN nor
NOT-IN but whose normalized value is a list of more than one element,
`_filter_to_fetchxml` raises the named `ValueError` instead of rendering
only the first element. -/
theorem non_list_operator_multi_value_raises
    (f : FilterExpression) (c : ConditionExpression) (vs : List Prim)
    (hc : c ∈ f.conditions)
    (hop1 : c.operator ≠ .IN) (hop2 : c.operator ≠ .NOT_IN)
    (hv : c.value = some (.list vs)) (hlen : 1 < vs.length) :
    filter_to_fetchxml f =
      .error "Condition value can only be a list of length more than one for IN and NOT IN operators" := by
  rcases f with ⟨fop, cs, fs⟩
  simp only [FilterExpression.conditions] at hc
  have herr := renderCondition_multi c vs hop1 hop2 hv (by omega)
  simp [filter_to_fetchxml, renderConditions_error_of_mem cs c hc herr]

/-- C6 witness: an EQUAL condition holding the two-element list
`["a", "b"]`. -/
theorem non_list_operator_multi_value_raises_witness :
    filter_to_fetchxml
      (.mk .AND [⟨"name", .EQUAL, some (.list [.str "a", .str "b"])⟩] .nil) =
      .error "Condition value can only be a list of length more than one for IN and NOT IN operators" := by
  exact non_list_operator_multi_value_raises
    (.mk .AND [⟨"name", .EQUAL, some (.list [.str "a", .str "b"])⟩] .nil)
    ⟨"name", .EQUAL, some (.list [.str "a", .str "b"])⟩
    [.str "a", .str "b"]
    (by simp [FilterExpression.conditions]) (by simp) (by simp) rfl (by simp)

/-! ## C1: inference without an explicit relationship name -/

/-- C1 counterexample: the organization metadata holds exactly one
relationship, a many-to-one entry in the non-mirrored orientation (primary
record `contact` as the referenced entity, related record `account` as the
referencing entity), and no explicit relationship name is given.  Under the
claim's spec-defined role rule — many-to-one mirrored, many-to-many either
ordering — *no* kind produces any role-matching candidate (last three
conjuncts), so the claim requires resolution to fail with no relationship
returned; yet `parse_relationship_name` returns that entry (first
conjunct), because its many-to-one filter keeps the one-to-many
orientation instead of the mirrored one. -/
theorem parse_nonmirrored_many_to_one_returned :
    parse_relationship_name
      ⟨⟨"contact", some "00000000000000000000000000000001", none⟩,
       ⟨"account", [⟨"account", some "00000000000000000000000000000002", none⟩]⟩,
       ⟨[⟨[⟨some "name", some "String", some "Name"⟩], some "contact", some "contacts",
          none, none, none, [],
          [⟨"accountid", "contact", "nav1", "parentaccountid", "account", "nav2",
            "contact_account"⟩], []⟩], true⟩,
       none⟩ =
      .ok (some "contact_account", some (.manyToOne ⟨"accountid", "contact", "nav1",
        "parentaccountid", "account", "nav2", "contact_account"⟩))
    ∧ specRoleOneToManyCandidates
      ⟨⟨"contact", some "00000000000000000000000000000001", none⟩,
       ⟨"account", [⟨"account", some "00000000000000000000000000000002", none⟩]⟩,
       ⟨[⟨[⟨some "name", some "String", some "Name"⟩], some "contact", some "contacts",
          none, none, none, [],
          [⟨"accountid", "contact", "nav1", "parentaccountid", "account", "nav2",
            "contact_account"⟩], []⟩], true⟩,
       none⟩ = []
    ∧ specRoleManyToOneCandidates
      ⟨⟨"contact", some "00000000000000000000000000000001", none⟩,
       ⟨"account", [⟨"account", some "00000000000000000000000000000002", none⟩]⟩,
       ⟨[⟨[⟨some "name", some "String", some "Name"⟩], some "contact", some "contacts",
          none, none, none, [],
          [⟨"accountid", "contact", "nav1", "parentaccountid", "account", "nav2",
            "contact_account"⟩], []⟩], true⟩,
       none⟩ = []
    ∧ specRoleManyToManyCandidates
      ⟨⟨"contact", some "00000000000000000000000000000001", none⟩,
       ⟨"account", [⟨"account", some "00000000000000000000000000000002", none⟩]⟩,
       ⟨[⟨[⟨some "name", some "String", some "Name"⟩], some "contact", some "contacts",
          none, none, none, [],
          [⟨"accountid", "contact", "nav1", "parentaccountid", "account", "nav2",
            "contact_account"⟩], []⟩], true⟩,
       none⟩ = [] := by
  refine ⟨by rfl, by rfl, by rfl, by rfl⟩

theorem singleOrElse_nil {a b : Type} (f : a → b) (d : b) :
    singleOrElse [] f d = d := rfl

theorem singleOrElse_single {a b : Type} (x : a) (f : a → b) (d : b) :
    singleOrElse [x] f d = f x := rfl

theorem singleOrElse_cons_cons {a b : Type} (x y : a) (t : List a)
    (f : a → b) (d : b) : singleOrElse (x :: y :: t) f d = d := rfl

theorem possible_lists_empty_of_find_none (req : RelateRequest)
    (hfind : findParseEntityMetadata req = none) :
    possibleOneToMany req = [] ∧ possibleManyToOne req = []
      ∧ possibleManyToMany req = [] := by
  unfold possibleOneToMany possibleManyToOne possibleManyToMany
  rw [hfind]
  exact ⟨rfl, rfl, rfl⟩

/-- C1 amended: without an explicit relationship name,
`parse_relationship_name` returns a relationship exactly when one single
kind produces candidates under the *code's* role filters — one-to-many:
primary record as referenced entity, first related record as referencing
entity; many-to-one: that same orientation (primary as referenced), not
the spec's mirrored one; many-to-many: only the ordering entity-1 =
primary, entity-2 = related — and that kind produces exactly one
candidate; every other outcome — no candidates anywhere, several
candidates within a kind, candidates in two or more kinds, missing entity
metadata, or empty organization metadata — yields no relationship. -/
theorem parse_infers_single_unambiguous (req : RelateRequest) :
    (∃ nm r, parse_relationship_name req = .ok (some nm, some r)) ↔
      (((possibleOneToMany req).length = 1 ∧ possibleManyToOne req = []
          ∧ possibleManyToMany req = []) ∨
       (possibleOneToMany req = [] ∧ (possibleManyToOne req).length = 1
          ∧ possibleManyToMany req = []) ∨
       (possibleOneToMany req = [] ∧ possibleManyToOne req = []
          ∧ (possibleManyToMany req).length = 1)) := by
  unfold parse_relationship_name
  by_cases hemp : req.org_metadata.entities.isEmpty
  · have hfind : findParseEntityMetadata req = none := by
      unfold findParseEntityMetadata
      have : req.org_metadata.entities = [] := by simpa using hemp
      rw [this]
      rfl
    obtain ⟨h1, h2, h3⟩ := possible_lists_empty_of_find_none req hfind
    simp [hemp, h1, h2, h3]
  · cases hfind : findParseEntityMetadata req with
    | none =>
        obtain ⟨h1, h2, h3⟩ := possible_lists_empty_of_find_none req hfind
        simp [hemp, hfind, h1, h2, h3]
    | some em =>
        simp only [hemp, Bool.false_eq_true, if_false, hfind]
        rcases hp1 : possibleOneToMany req with _ | ⟨a1, _ | ⟨b1, t1⟩⟩ <;>
          rcases hp2 : possibleManyToOne req with _ | ⟨a2, _ | ⟨b2, t2⟩⟩ <;>
            rcases hp3 : possibleManyToMany req with _ | ⟨a3, _ | ⟨b3, t3⟩⟩ <;>
              simp_all <;> omega

/-! ## C4: explicit-name resolution roles, amended part -/

/-- C4 amended: with an explicit schema name, the resolver searches the
found entity's three relationship lists comparing the schema name
case-insensitively, and matches roles as follows — one-to-many: the primary
record is the referenced entity and the related record the referencing
entity; many-to-one: the *same* orientation (primary as referenced, related
as referencing), not the mirrored one; many-to-many: only the ordering
entity-1 = primary, entity-2 = related.  A relationship is returned exactly
when some kind's match list is a singleton, the kinds being tried in the
order one-to-many, many-to-one, many-to-many. -/
theorem validate_explicit_name_roles
    (req : RelateRequest) (nm : String) (em : EntityMetadata) (r : RelMeta)
    (h1 : req.relationship_name = some nm) (h2 : nm ≠ "")
    (h3 : req.org_metadata.entities ≠ [])
    (h4 : req.org_metadata.contains_relationships = true)
    (h5 : findValidateEntityMetadata req = some em) :
    validate_relationship_name req = .ok (some r) ↔
      ((∃ x, validateOneToManyMatches req nm em = [x] ∧ r = .oneToMany x) ∨
       ((validateOneToManyMatches req nm em).length ≠ 1 ∧
         ∃ x, validateManyToOneMatches req nm em = [x] ∧ r = .manyToOne x) ∨
       ((validateOneToManyMatches req nm em).length ≠ 1 ∧
         (validateManyToOneMatches req nm em).length ≠ 1 ∧
         ∃ x, validateManyToManyMatches req nm em = [x] ∧ r = .manyToMany x)) := by
  unfold validate_relationship_name
  rw [h1]
  have hcond : (req.org_metadata.entities.isEmpty
      || !req.org_metadata.contains_relationships) = false := by
    have hemp : req.org_metadata.entities.isEmpty = false := by simpa using h3
    rw [hemp, h4]
    rfl
  rcases hv1 : validateOneToManyMatches req nm em with _ | ⟨x1, _ | ⟨y1, t1⟩⟩ <;>
    rcases hv2 : validateManyToOneMatches req nm em with _ | ⟨x2, _ | ⟨y2, t2⟩⟩ <;>
      rcases hv3 : validateManyToManyMatches req nm em with _ | ⟨x3, _ | ⟨y3, t3⟩⟩ <;>
        simp [h2, hcond, h5, hv1, hv2, hv3, singleOrElse_nil, singleOrElse_single,
          singleOrElse_cons_cons, eq_comm]

/-- C4 amended, witness: one matching many-to-one relationship in the
non-mirrored orientation (primary `contact` as referenced entity), found
under a schema name differing only in case. -/
theorem validate_explicit_name_roles_witness :
    validate_relationship_name
      ⟨⟨"contact", some "00000000000000000000000000000001", none⟩,
       ⟨"account", [⟨"account", some "00000000000000000000000000000002", none⟩]⟩,
       ⟨[⟨[⟨some "name", some "String", some "Name"⟩], some "contact", some "contacts",
          none, none, none, [],
          [⟨"parentaccountid", "contact", "nav1", "accountid", "account", "nav2",
            "Contact_Account"⟩], []⟩], true⟩,
       some "contact_account"⟩ =
      .ok (some (.manyToOne ⟨"parentaccountid", "contact", "nav1", "accountid", "account",
        "nav2", "Contact_Account"⟩)) := by
  exact (validate_explicit_name_roles
    ⟨⟨"contact", some "00000000000000000000000000000001", none⟩,
     ⟨"account", [⟨"account", some "00000000000000000000000000000002", none⟩]⟩,
     ⟨[⟨[⟨some "name", some "String", some "Name"⟩], some "contact", some "contacts",
        none, none, none, [],
        [⟨"parentaccountid", "contact", "nav1", "accountid", "account", "nav2",
          "Contact_Account"⟩], []⟩], true⟩,
     some "contact_account"⟩
    "contact_account"
    ⟨[⟨some "name", some "String", some "Name"⟩], some "contact", some "contacts",
      none, none, none, [],
      [⟨"parentaccountid", "contact", "nav1", "accountid", "account", "nav2",
        "Contact_Account"⟩], []⟩
    (.manyToOne ⟨"parentaccountid", "contact", "nav1", "accountid", "account", "nav2",
      "Contact_Account"⟩)
    rfl (by decide) (by decide) rfl rfl).mpr
    (Or.inr (Or.inl ⟨by decide,
      ⟨"parentaccountid", "contact", "nav1", "accountid", "account", "nav2",
        "Contact_Account"⟩, by rfl, rfl⟩))

/-! ## C10: lookup decoding with missing companion annotation keys -/

set_option maxHeartbeats 1000000 in
/-- C10: decoding a payload whose lookup-patterned key `k` holds a non-null
UUID string while one or both companion annotation keys are absent does not
fail: it produces an `EntityReference` whose `entity_logical_name` and/or
`name` is the literal string `"None"` (Python `str(None)`) in place of each
missing companion's value.  Present companion keys are retained as scalar
attributes after the reference.  The later hypotheses are structural
side conditions on the key strings (the companion keys are distinct from the
lookup key, from each other, from the base name and from the entity id key,
and are not themselves annotation- or lookup-shaped), all of which hold for
real wire keys. -/
theorem lookup_missing_companions_decode
    (logical k s u : String) (ln fv : Option String)
    (hu : uuidParse s = some u)
    (habsent : ln = none ∨ fv = none)
    (hln : ∀ x, ln = some x → x ≠ "")
    (hk0 : pyStartsWith k "@" = false)
    (hkpat : (pyStartsWith k "_" && pyEndsWith k "_value") = true)
    (hne1 : k ≠ lookupLogicalNameKey k)
    (hne2 : k ≠ formattedValueKey k)
    (hne3 : lookupLogicalNameKey k ≠ formattedValueKey k)
    (hb1 : pyDropRight (pyDrop k 1) 6 ≠ lookupLogicalNameKey k)
    (hb2 : pyDropRight (pyDrop k 1) 6 ≠ formattedValueKey k)
    (hc1 : pyStartsWith (lookupLogicalNameKey k) "@" = false)
    (hc2 : (pyStartsWith (lookupLogicalNameKey k) "_"
        && pyEndsWith (lookupLogicalNameKey k) "_value") = false)
    (hc3 : pyStartsWith (formattedValueKey k) "@" = false)
    (hc4 : (pyStartsWith (formattedValueKey k) "_"
        && pyEndsWith (formattedValueKey k) "_value") = false)
    (hid1 : logical ++ "id" ≠ lookupLogicalNameKey k)
    (hid2 : logical ++ "id" ≠ formattedValueKey k) :
    decodeEntity logical (lookupOnlyPayload k s ln fv) =
      .ok ⟨logical, none,
        (pyDropRight (pyDrop k 1) 6,
          Attr.ref ⟨pyStrOfGet (ln.map Prim.str), some u,
            some (pyStrOfGet (fv.map Prim.str))⟩) ::
        ((ln.map (fun x => (lookupLogicalNameKey k, Attr.prim (Prim.str x)))).toList ++
         (fv.map (fun y => (formattedValueKey k, Attr.prim (Prim.str y)))).toList)⟩ := by
  have hs : s ≠ "" := by
    intro h
    subst h
    rw [show uuidParse "" = none from rfl] at hu
    cases hu
  rcases ln with _ | x <;> rcases fv with _ | y
  · simp [decodeEntity, lookupOnlyPayload, parseAttributesGo, hk0, hkpat, dictGet,
      Prim.truthy, hs, pyUUID, hu, mkEntityReference, pyStrOfGet, dictSet,
      hne1, hne2, hne3, hb1, hb2, hc1, hc2, hc3, hc4, hid1, hid2, Prim.isInstInt,
      Ne.symm hne1, Ne.symm hne2, Ne.symm hne3, Ne.symm hb1, Ne.symm hb2]
  · simp [decodeEntity, lookupOnlyPayload, parseAttributesGo, hk0, hkpat, dictGet,
      Prim.truthy, hs, pyUUID, hu, mkEntityReference, pyStrOfGet, dictSet,
      hne1, hne2, hne3, hb1, hb2, hc1, hc2, hc3, hc4, hid1, hid2, Prim.isInstInt,
      Ne.symm hne1, Ne.symm hne2, Ne.symm hne3, Ne.symm hb1, Ne.symm hb2, Prim.pyStr]
  · have hx : x ≠ "" := hln x rfl
    simp [decodeEntity, lookupOnlyPayload, parseAttributesGo, hk0, hkpat, dictGet,
      Prim.truthy, hs, pyUUID, hu, mkEntityReference, pyStrOfGet, dictSet,
      hne1, hne2, hne3, hb1, hb2, hc1, hc2, hc3, hc4, hid1, hid2, Prim.isInstInt,
      Ne.symm hne1, Ne.symm hne2, Ne.symm hne3, Ne.symm hb1, Ne.symm hb2,
      Prim.pyStr, hx]
  · rcases habsent with h | h
    · cases h
    · cases h

/-- C10 witness: lookup key `_ownerid_value`, lookup-logical-name companion
present, formatted-value companion absent. -/
theorem lookup_missing_companions_decode_witness :
    decodeEntity "account"
      (lookupOnlyPayload "_ownerid_value" "0a1b2c3d-0000-4000-8000-000000000042"
        (some "systemuser") none) =
      .ok ⟨"account", none,
        [("ownerid", .ref ⟨"systemuser", some "0a1b2c3d000040008000000000000042",
            some "None"⟩),
         ("_ownerid_value@Microsoft.Dynamics.CRM.lookuplogicalname",
            .prim (.str "systemuser"))]⟩ := by
  exact lookup_missing_companions_decode "account" "_ownerid_value"
    "0a1b2c3d-0000-4000-8000-000000000042" "0a1b2c3d000040008000000000000042"
    (some "systemuser") none
    (by rfl) (Or.inr rfl) (by intro x h; cases h; decide)
    (by decide) (by decide) (by decide) (by decide) (by decide) (by decide)
    (by decide) (by decide) (by decide) (by decide) (by decide) (by decide)
    (by decide)

/-! ## C8: annotation keys, amended part -/

theorem dictSet_key_prop {α : Type} (P : String → Prop) (l : List (String × α))
    (k : String) (v : α) (hl : ∀ kv ∈ l, P kv.1) (hk : P k) :
    ∀ kv ∈ dictSet l k v, P kv.1 := by
  induction l with
  | nil =>
      intro kv hkv
      simp only [dictSet, List.mem_singleton] at hkv
      subst hkv
      exact hk
  | cons hd tl ih =>
      intro kv hkv
      obtain ⟨k', v'⟩ := hd
      simp only [dictSet] at hkv
      by_cases he : k' = k
      · rw [if_pos he] at hkv
        rcases List.mem_cons.mp hkv with rfl | hmem
        · exact hk
        · exact hl kv (List.mem_cons_of_mem _ hmem)
      · rw [if_neg he] at hkv
        rcases List.mem_cons.mp hkv with rfl | hmem
        · exact hl (k', v') (List.mem_cons_self _ _)
        · exact ih (fun kv h => hl kv (List.mem_cons_of_mem _ h)) kv hmem

theorem parseAttributesGo_no_at_keys (logical : String)
    (orig : List (String × Prim)) :
    ∀ (ks : List String) (eid : Option String) (acc : List (String × Attr)),
    (∀ kk ∈ ks, (pyStartsWith kk "_" && pyEndsWith kk "_value") = true →
        pyStartsWith (pyDropRight (pyDrop kk 1) 6) "@" = false) →
    (∀ kv ∈ acc, pyStartsWith kv.1 "@" = false) →
    ∀ eid' res, parseAttributesGo logical orig ks eid acc = .ok (eid', res) →
    ∀ kv ∈ res, pyStartsWith kv.1 "@" = false := by
  intro ks
  induction ks with
  | nil =>
      intro eid acc _ hacc eid' res hres
      simp only [parseAttributesGo] at hres
      cases hres
      exact hacc
  | cons kk ks ih =>
      intro eid acc hks hacc eid' res hres
      have hks' : ∀ kk' ∈ ks, (pyStartsWith kk' "_" && pyEndsWith kk' "_value") = true →
          pyStartsWith (pyDropRight (pyDrop kk' 1) 6) "@" = false :=
        fun kk' h => hks kk' (List.mem_cons_of_mem _ h)
      simp only [parseAttributesGo] at hres
      by_cases h1 : pyStartsWith kk "@" = true
      · rw [if_pos h1] at hres
        exact ih eid acc hks' hacc eid' res hres
      · rw [if_neg h1] at hres
        have h1f : pyStartsWith kk "@" = false := by
          cases hb : pyStartsWith kk "@"
          · rfl
          · exact absurd hb h1
        by_cases h2 : (pyStartsWith kk "_" && pyEndsWith kk "_value") = true
        · rw [if_pos h2] at hres
          split at hres
          · exact ih eid acc hks' hacc eid' res hres
          · split at hres
            · exact ih eid acc hks' hacc eid' res hres
            · split at hres
              · cases hres
              · split at hres
                · cases hres
                · exact ih eid _ hks'
                    (dictSet_key_prop (fun x => pyStartsWith x "@" = false)
                      acc _ _ hacc (hks kk (List.mem_cons_self _ _) h2))
                    eid' res hres
        · rw [if_neg h2] at hres
          by_cases h3 : ((match dictGet orig kk with
              | some v => v.isInstInt
              | none => false)
            && (dictGet orig (formattedValueKey kk)).isSome) = true
          · rw [if_pos h3] at hres
            exact ih eid _ hks'
              (dictSet_key_prop (fun x => pyStartsWith x "@" = false)
                acc _ _ hacc h1f) eid' res hres
          · rw [if_neg h3] at hres
            by_cases h4 : logical ++ "id" = kk
            · rw [if_pos h4] at hres
              cases hup : pyUUID ((dictGet orig kk).getD .null) with
              | error e => rw [hup] at hres; cases hres
              | ok h =>
                  rw [hup] at hres
                  exact ih _ _ hks'
                    (dictSet_key_prop (fun x => pyStartsWith x "@" = false)
                      acc _ _ hacc h1f) eid' res hres
            · rw [if_neg h4] at hres
              exact ih eid _ hks'
                (dictSet_key_prop (fun x => pyStartsWith x "@" = false)
                  acc _ _ hacc h1f) eid' res hres

/-- C8 amended: decoding skips exactly the wire keys that begin with the
`"@"` character — in a successfully decoded entity no attribute is stored
under a key beginning with `"@"` (given that lookup-patterned keys denote
base names not themselves beginning with `"@"`, as real wire keys do) —
while companion annotation keys such as
`<base>@Microsoft.Dynamics.CRM.lookuplogicalname`, which begin with the
base attribute name rather than `"@"`, are not skipped (they are retained,
as the companion counterexample shows). -/
theorem decode_skips_only_at_prefixed_keys
    (logical : String) (kvs : List (String × Prim)) (ent : Entity)
    (hpat : ∀ kv ∈ kvs, (pyStartsWith kv.1 "_" && pyEndsWith kv.1 "_value") = true →
        pyStartsWith (pyDropRight (pyDrop kv.1 1) 6) "@" = false)
    (hok : decodeEntity logical kvs = .ok ent) :
    ∀ kv ∈ ent.attributes, pyStartsWith kv.1 "@" = false := by
  unfold decodeEntity at hok
  by_cases hemp : kvs.isEmpty = true
  · rw [if_pos hemp] at hok
    cases hok
    intro kv hkv
    cases hkv
  · rw [if_neg hemp] at hok
    cases hres : parseAttributesGo logical kvs (kvs.map (fun kv => kv.1)) none [] with
    | error e => rw [hres] at hok; cases hok
    | ok p =>
        obtain ⟨eid, res⟩ := p
        rw [hres] at hok
        cases hok
        exact parseAttributesGo_no_at_keys logical kvs _ none []
          (by
            intro kk hkk hp
            rw [List.mem_map] at hkk
            obtain ⟨kv, hkv, rfl⟩ := hkk
            exact hpat kv hkv hp)
          (by intro kv h; cases h) eid res hres

/-- C8 amended, witness: a payload holding an `@odata.context` key and a
plain scalar decodes to an entity whose attribute map does not contain the
`@odata.context` pair. -/
theorem decode_skips_only_at_prefixed_keys_witness :
    ("@odata.context", Attr.prim (.str "ctx")) ∉
      (Entity.mk "account" none [("name", Attr.prim (.str "Test"))]).attributes := by
  intro hmem
  have := decode_skips_only_at_prefixed_keys "account"
    [("@odata.context", .str "ctx"), ("name", .str "Test")]
    (Entity.mk "account" none [("name", Attr.prim (.str "Test"))])
    (by intro kv hkv hp; fin_cases hkv <;> simp_all)
    (by rfl)
    ("@odata.context", Attr.prim (.str "ctx")) hmem
  simp [pyStartsWith] at this

/-! ## C7: scalar round-trip, amended part -/

theorem dictSet_append {α : Type} (l : List (String × α)) (k : String) (v : α)
    (hk : k ∉ l.map (fun kv => kv.1)) : dictSet l k v = l ++ [(k, v)] := by
  induction l with
  | nil => rfl
  | cons hd tl ih =>
      obtain ⟨k', v'⟩ := hd
      simp only [List.map_cons, List.mem_cons] at hk
      push_neg at hk
      simp only [dictSet, if_neg (Ne.symm hk.1), List.cons_append, List.cons.injEq, true_and]
      exact ih hk.2

theorem dictGet_of_mem_nodup {α : Type} (l : List (String × α)) (kv : String × α)
    (hmem : kv ∈ l) (hnd : (l.map (fun kv => kv.1)).Nodup) :
    dictGet l kv.1 = some kv.2 := by
  induction l with
  | nil => cases hmem
  | cons hd tl ih =>
      obtain ⟨k', v'⟩ := hd
      simp only [List.map_cons, List.nodup_cons] at hnd
      rcases List.mem_cons.mp hmem with rfl | hmem'
      · simp [dictGet]
      · have hne : k' ≠ kv.1 := by
          intro h
          exact hnd.1 (h ▸ List.mem_map.mpr ⟨kv, hmem', rfl⟩)
        simp only [dictGet, if_neg hne]
        exact ih hmem' hnd.2

theorem parseAttributesGo_scalars (logical : String) (orig : List (String × Prim)) :
    ∀ (rest : List (String × Prim)) (eid : Option String)
      (acc : List (String × Attr)),
    (∀ kv ∈ rest, pyStartsWith kv.1 "@" = false) →
    (∀ kv ∈ rest, (pyStartsWith kv.1 "_" && pyEndsWith kv.1 "_value") = false) →
    (∀ kv ∈ rest, (dictGet orig (formattedValueKey kv.1)).isSome = false) →
    (∀ kv ∈ rest, dictGet orig kv.1 = some kv.2) →
    (∀ kv ∈ rest, logical ++ "id" = kv.1 → ∃ h, pyUUID kv.2 = .ok h) →
    (∀ kv ∈ rest, kv.1 ∉ acc.map (fun kv => kv.1)) →
    (rest.map (fun kv => kv.1)).Nodup →
    ∃ eid', parseAttributesGo logical orig (rest.map (fun kv => kv.1)) eid acc =
      .ok (eid', acc ++ rest.map (fun kv => (kv.1, Attr.prim kv.2))) := by
  intro rest
  induction rest with
  | nil =>
      intro eid acc _ _ _ _ _ _ _
      exact ⟨eid, by simp [parseAttributesGo]⟩
  | cons kv rest ih =>
      intro eid acc h1 h2 h3 hget hid hdisj hnd
      obtain ⟨k, v⟩ := kv
      have h1k := h1 (k, v) (List.mem_cons_self _ _)
      have h2k := h2 (k, v) (List.mem_cons_self _ _)
      have h3k := h3 (k, v) (List.mem_cons_self _ _)
      have hgetk := hget (k, v) (List.mem_cons_self _ _)
      have hdisjk := hdisj (k, v) (List.mem_cons_self _ _)
      simp only [List.map_cons, List.nodup_cons] at hnd
      have hweak : ∀ p : (String × Prim) → Prop,
          (∀ kv ∈ (k, v) :: rest, p kv) → ∀ kv ∈ rest, p kv :=
        fun p h kv hm => h kv (List.mem_cons_of_mem _ hm)
      have hsetacc : dictSet acc k (Attr.prim ((dictGet orig k).getD .null)) =
          acc ++ [(k, Attr.prim v)] := by
        rw [hgetk]
        exact dictSet_append acc k _ hdisjk
      have hdisj' : ∀ kv ∈ rest, kv.1 ∉ (acc ++ [(k, Attr.prim v)]).map (fun kv => kv.1) := by
        intro kv hm
        simp only [List.map_append, List.mem_append, List.map_cons, List.map_nil,
          List.mem_singleton, not_or]
        refine ⟨hdisj kv (List.mem_cons_of_mem _ hm), ?_⟩
        intro h
        exact hnd.1 (h ▸ List.mem_map.mpr ⟨kv, hm, rfl⟩)
      simp only [List.map_cons, parseAttributesGo, h1k, Bool.false_eq_true, if_false,
        h2k, h3k, Bool.and_false]
      by_cases hidk : logical ++ "id" = k
      · rw [if_pos hidk]
        obtain ⟨hx, hpx⟩ := hid (k, v) (List.mem_cons_self _ _) hidk
        rw [hgetk]
        simp only [Option.getD_some]
        rw [hpx]
        obtain ⟨eid', hrec⟩ := ih (some hx) (acc ++ [(k, Attr.prim v)])
          (hweak _ h1) (hweak _ h2) (hweak _ h3) (hweak _ hget) (hweak _ hid)
          hdisj' hnd.2
        refine ⟨eid', ?_⟩
        rw [dictSet_append acc k (Attr.prim v) hdisjk]
        simp [hrec]
      · rw [if_neg hidk]
        obtain ⟨eid', hrec⟩ := ih eid (acc ++ [(k, Attr.prim v)])
          (hweak _ h1) (hweak _ h2) (hweak _ h3) (hweak _ hget) (hweak _ hid)
          hdisj' hnd.2
        refine ⟨eid', ?_⟩
        rw [hsetacc, hrec]
        simp

theorem encodeAttributesGo_prims (em : EntityMetadata) (md : OrgMetadata) :
    ∀ (pairs : List (String × Prim)) (acc : List (String × Prim)),
    (∀ kv ∈ pairs, kv.1 ∉ acc.map (fun kv => kv.1)) →
    (pairs.map (fun kv => kv.1)).Nodup →
    encodeAttributesGo em md (pairs.map (fun kv => (kv.1, Attr.prim kv.2))) acc =
      .ok (acc ++ pairs) := by
  intro pairs
  induction pairs with
  | nil => intro acc _ _; simp [encodeAttributesGo]
  | cons kv pairs ih =>
      intro acc hdisj hnd
      obtain ⟨k, v⟩ := kv
      simp only [List.map_cons, List.nodup_cons] at hnd
      have hdisjk := hdisj (k, v) (List.mem_cons_self _ _)
      have hdisj' : ∀ kv ∈ pairs, kv.1 ∉ (acc ++ [(k, v)]).map (fun kv => kv.1) := by
        intro kv hm
        simp only [List.map_append, List.mem_append, List.map_cons, List.map_nil,
          List.mem_singleton, not_or]
        refine ⟨hdisj kv (List.mem_cons_of_mem _ hm), ?_⟩
        intro h
        exact hnd.1 (h ▸ List.mem_map.mpr ⟨kv, hm, rfl⟩)
      simp only [List.map_cons, encodeAttributesGo]
      rw [dictSet_append acc k v hdisjk, ih (acc ++ [(k, v)]) hdisj' hnd.2]
      simp

/-- C7 amended: a flat wire object containing only plain scalar fields —
no key begins with `"@"`, no key is lookup-patterned, no key has a
formatted-value companion key in the payload (together: no annotation
keys), keys are distinct, and any key equal to the entity's own
`<logical_name>id` key carries a UUID-parseable string — decodes into an
entity and re-encodes (against org metadata that contains the entity, with
a non-empty attribute list) to exactly the original key/value pairs, in
order; the "nothing to send" result for the empty object counts as the
empty body. -/
theorem scalar_roundtrip
    (logical : String) (kvs : List (String × Prim)) (md : OrgMetadata)
    (em : EntityMetadata)
    (h1 : ∀ kv ∈ kvs, pyStartsWith kv.1 "@" = false)
    (h2 : ∀ kv ∈ kvs, (pyStartsWith kv.1 "_" && pyEndsWith kv.1 "_value") = false)
    (h3 : ∀ kv ∈ kvs, (dictGet kvs (formattedValueKey kv.1)).isSome = false)
    (hid : ∀ kv ∈ kvs, logical ++ "id" = kv.1 → ∃ h, pyUUID kv.2 = .ok h)
    (hnd : (kvs.map (fun kv => kv.1)).Nodup)
    (hmd : md.entities.find? (fun d => d.logical_name == some logical) = some em)
    (hma : em.attributes ≠ []) :
    ∃ ent, decodeEntity logical kvs = .ok ent ∧
      ∃ body, parse_entity_to_web_api_body ent md = .ok body ∧
        body.getD [] = kvs := by
  have hmdne : md.entities ≠ [] := by
    intro h
    rw [h] at hmd
    cases hmd
  by_cases hemp : kvs.isEmpty = true
  · have hnil : kvs = [] := by simpa using hemp
    subst hnil
    refine ⟨⟨logical, none, []⟩, by simp [decodeEntity], none, ?_, rfl⟩
    simp [parse_entity_to_web_api_body]
  · have hget : ∀ kv ∈ kvs, dictGet kvs kv.1 = some kv.2 :=
      fun kv hm => dictGet_of_mem_nodup kvs kv hm hnd
    obtain ⟨eid', hdec⟩ := parseAttributesGo_scalars logical kvs kvs none []
      h1 h2 h3 hget hid (by intro kv _; simp) hnd
    refine ⟨⟨logical, eid', kvs.map (fun kv => (kv.1, Attr.prim kv.2))⟩, ?_, ?_⟩
    · unfold decodeEntity
      rw [if_neg hemp]
      rw [hdec]
      simp
    · have hkne : kvs.map (fun kv => (kv.1, Attr.prim kv.2)) ≠ [] := by
        simp only [ne_eq, List.map_eq_nil]
        intro h
        rw [h] at hemp
        exact hemp rfl
      refine ⟨some kvs, ?_, rfl⟩
      unfold parse_entity_to_web_api_body
      rw [if_neg (by simpa using hkne)]
      unfold get_entity_metadata
      rw [if_neg (by simpa using hmdne)]
      rw [hmd]
      have hmaf : em.attributes.isEmpty = false := by simpa using hma
      have henc := encodeAttributesGo_prims em md kvs [] (by intro kv _; simp) hnd
      simp [hmaf, henc]

/-- C7 amended, witness: two plain scalar fields round-trip through decode
and encode. -/
theorem scalar_roundtrip_witness :
    ∃ ent, decodeEntity "contact" [("name", .str "Test"), ("age", .int 3)] = .ok ent ∧
      ∃ body, parse_entity_to_web_api_body ent
          ⟨[⟨[⟨some "name", some "String", some "Name"⟩], some "contact",
             some "contacts", none, none, none, [], [], []⟩], false⟩ = .ok body ∧
        body.getD [] = [("name", .str "Test"), ("age", .int 3)] := by
  exact scalar_roundtrip "contact" [("name", .str "Test"), ("age", .int 3)]
    ⟨[⟨[⟨some "name", some "String", some "Name"⟩], some "contact",
       some "contacts", none, none, none, [], [], []⟩], false⟩
    ⟨[⟨some "name", some "String", some "Name"⟩], some "contact",
      some "contacts", none, none, none, [], [], []⟩
    (by intro kv hkv; fin_cases hkv <;> decide)
    (by intro kv hkv; fin_cases hkv <;> decide)
    (by intro kv hkv; fin_cases hkv <;> decide)
    (by intro kv hkv hk; fin_cases hkv <;> simp_all <;> decide)
    (by decide) rfl (by decide)
